import Mathlib

/-!
Verification of the cfui tunnel supervisor (src/service/runner.go) and the
log broadcaster (src/internal/logger/logger.go), shallowly embedded in Lean.

Modelling conventions:
* Go errors are `Option Msg` where `Msg := List Char` is the error message
  (`none` is the nil error).
* `strings.Contains` is `containsSub`, `strings.ToLower` is `lowerMsg`
  (character-wise `Char.toLower`, the relevant patterns are ASCII).
* Timestamps are `Nat` seconds; `time.Since(t) > 5*time.Minute` at current
  time `now` becomes `now - t > 300`.
* Go maps read with a zero default, so `protocolFailures` is a total
  function `String → Nat`; the range-loop that zeroes every key is the
  constant-zero function (extensionally the same observable map).
* Goroutine spawning and context allocation are recorded by a `Bool`
  result and a generation counter `ctxGen`, so "spawns no task, allocates
  no context" is visible in the state.
-/

namespace CfUI

/-- An error message, as a list of characters. -/
abbrev Msg := List Char

/-- Model of Go `strings.ToLower` on the messages we classify. -/
def lowerMsg (m : Msg) : Msg := m.map Char.toLower

/-- Model of Go `strings.Contains hay pat`: does `pat` occur as a
contiguous substring of `hay`? -/
def containsSub (pat : Msg) : Msg → Bool
  | [] => pat.isEmpty
  | c :: t => pat.isPrefixOf (c :: t) || containsSub pat t

/-- `retryablePatterns` from `isRetryableError` (runner.go). -/
def retryablePatterns : List Msg :=
  ["connection refused".data, "connection reset".data, "timeout".data,
   "temporary failure".data, "network is unreachable".data,
   "no route to host".data, "broken pipe".data, "i/o timeout".data]

/-- `nonRetryablePatterns` from `isRetryableError` (runner.go). -/
def nonRetryablePatterns : List Msg :=
  ["invalid token".data, "authentication failed".data, "unauthorized".data,
   "forbidden".data, "bad request".data, "invalid configuration".data,
   "missing required".data]

/-- `isRetryableError` (runner.go): nil is not retryable; otherwise the
retryable patterns are scanned first (each match returns true), then the
non-retryable patterns (each match returns false), and anything left is
retryable by default. -/
def isRetryableError (err : Option Msg) : Bool :=
  match err with
  | none => false
  | some msg =>
    if retryablePatterns.any (fun p => containsSub p (lowerMsg msg)) then
      true
    else if nonRetryablePatterns.any (fun p => containsSub p (lowerMsg msg)) then
      false
    else
      true

/-- `quicErrors` from `isProtocolRelatedError` (runner.go). -/
def quicErrors : List Msg :=
  ["quic".data, "timeout: no recent network activity".data,
   "failed to dial to edge with quic".data,
   "failed to accept quic stream".data]

/-- `connectionErrors` from `isProtocolRelatedError` (runner.go). -/
def connectionErrors : List Msg :=
  ["connection refused".data, "connection reset".data,
   "connection timeout".data]

/-- `isProtocolRelatedError` (runner.go): true iff the lowercased message
contains a QUIC-specific or generic connection pattern. -/
def isProtocolRelatedError (err : Option Msg) : Bool :=
  match err with
  | none => false
  | some msg =>
    quicErrors.any (fun p => containsSub p (lowerMsg msg)) ||
      connectionErrors.any (fun p => containsSub p (lowerMsg msg))

/-- The mutex-guarded mutable state of `Runner` (runner.go), restricted to
the fields the supervisor logic reads and writes.  `ctxGen` counts
allocations of cancellation contexts (`context.WithCancel`). -/
structure Runner where
  running : Bool
  lastError : Option Msg
  restartCount : Nat
  lastRestart : Nat
  configFile : String
  currentProtocol : String
  protocolFailures : String → Nat
  lastProtocolSwitch : Nat
  protocolSwitchCount : Nat
  ctxGen : Nat

/-- The configuration fields the supervisor logic consults. -/
structure Config where
  token : String
  protocol : String
  autoRestart : Bool

/-- `NewRunner` (runner.go): fresh supervisor, protocol starts as auto. -/
def NewRunner : Runner :=
  { running := false, lastError := none, restartCount := 0, lastRestart := 0,
    configFile := "", currentProtocol := "auto", protocolFailures := fun _ => 0,
    lastProtocolSwitch := 0, protocolSwitchCount := 0, ctxGen := 0 }

/-- Result of `Start` (runner.go): the wording of the two error returns. -/
inductive StartError
  | alreadyRunning
  | tokenRequired
deriving DecidableEq

/-- `Start` (runner.go): returns the post state, the error (if any), and
whether a worker goroutine was spawned.  The running check comes first and
returns before any state is touched; the token check is second; only then
is a fresh context allocated, `running` set, `lastError` cleared and the
worker spawned. -/
def Start (cfg : Config) (r : Runner) : Runner × Option StartError × Bool :=
  if r.running then
    (r, some StartError.alreadyRunning, false)
  else if cfg.token = "" then
    (r, some StartError.tokenRequired, false)
  else
    ({ r with ctxGen := r.ctxGen + 1, running := true, lastError := none },
     none, true)

/-- Outcome of `Stop` (runner.go). -/
inductive StopOutcome
  | okIdle
  | okStopped
  | stopTimeout
deriving DecidableEq

/-- `Stop` (runner.go), with the 30-second wait race decided by the
`timedOut` parameter.  Idle is a no-op; an in-time stop clears `running`;
a timeout clears `running` and runs `cleanupConfigFile` (which empties the
tracked path), returning the timeout error. -/
def Stop (timedOut : Bool) (r : Runner) : Runner × StopOutcome :=
  if !r.running then
    (r, StopOutcome.okIdle)
  else if timedOut then
    ({ r with running := false, configFile := "" }, StopOutcome.stopTimeout)
  else
    ({ r with running := false }, StopOutcome.okStopped)

/-- `selectProtocol` (runner.go), returning the updated state and the
protocol handed to the worker.  `now` models `time.Now()`. -/
def selectProtocol (configProtocol : String) (now : Nat) (r : Runner) :
    Runner × String :=
  if configProtocol ≠ "" ∧ configProtocol ≠ "auto" then
    ({ r with currentProtocol := configProtocol }, configProtocol)
  else if r.protocolFailures r.currentProtocol ≥ 3 then
    let nextProtocol :=
      if r.currentProtocol = "quic" ∨ r.currentProtocol = "auto" then "http2"
      else "quic"
    ({ r with
        protocolFailures := Function.update r.protocolFailures r.currentProtocol 0,
        currentProtocol := nextProtocol,
        lastProtocolSwitch := now,
        protocolSwitchCount := r.protocolSwitchCount + 1 },
     nextProtocol)
  else
    let cur :=
      if r.currentProtocol = "" ∨ r.currentProtocol = "auto" then "quic"
      else r.currentProtocol
    ({ r with currentProtocol := cur }, cur)

/-- `recordProtocolSuccess` (runner.go): only when `currentProtocol` is a
concrete protocol (neither empty nor auto) does it zero the current
protocol's failure count, zero `restartCount`, and then zero every entry
of the failure map; otherwise it does nothing. -/
def recordProtocolSuccess (r : Runner) : Runner :=
  if r.currentProtocol ≠ "" ∧ r.currentProtocol ≠ "auto" then
    { r with protocolFailures := fun _ => 0, restartCount := 0 }
  else
    r

/-- `recordProtocolFailure` (runner.go): defaults an unset/auto protocol to
quic, then increments the current protocol's failure count only when the
error is protocol-related. -/
def recordProtocolFailure (err : Option Msg) (r : Runner) : Runner :=
  let r1 :=
    if r.currentProtocol = "" ∨ r.currentProtocol = "auto" then
      { r with currentProtocol := "quic" }
    else r
  if isProtocolRelatedError err then
    { r1 with
        protocolFailures :=
          Function.update r1.protocolFailures r1.currentProtocol
            (r1.protocolFailures r1.currentProtocol + 1) }
  else
    r1

/-- The backoff delay of `checkAutoRestart` (runner.go), in seconds:
`5s * 2^restartCount` capped at 60s. -/
def backoffDelay (restartCount : Nat) : Nat :=
  min (5 * 2 ^ restartCount) 60

/-- What `checkAutoRestart` decides to do. -/
inductive RestartDecision
  | noRestart
  | restartAfter (delaySec : Nat)
deriving DecidableEq

/-- `checkAutoRestart` (runner.go): nothing when auto-restart is disabled;
otherwise reset `restartCount` to 0 when the last restart is more than five
minutes old, compute the backoff delay from the (post-reset, pre-increment)
count, refuse when the count has reached 10, and otherwise increment the
count, stamp `lastRestart`, and schedule a restart after the delay. -/
def checkAutoRestart (autoRestart : Bool) (now : Nat) (r : Runner) :
    Runner × RestartDecision :=
  if !autoRestart then
    (r, RestartDecision.noRestart)
  else
    let r1 := if now - r.lastRestart > 300 then { r with restartCount := 0 } else r
    let delay := backoffDelay r1.restartCount
    if r1.restartCount ≥ 10 then
      (r1, RestartDecision.noRestart)
    else
      ({ r1 with restartCount := r1.restartCount + 1, lastRestart := now },
       RestartDecision.restartAfter delay)

/-- The tail of `runTunnel` (runner.go) from the return of
`app.RunContext` through the deferred cleanup, executed on the shared
supervisor state `r`.  `ctxCancelled` is whether THIS worker's context
(the one captured at its own Start) is cancelled; `result` is the error
returned by the library call.  A cancelled worker skips all recording but
its defer still runs `cleanupConfigFile` and clears `running`; a
non-cancelled worker records the error or success and its defer then runs
`checkAutoRestart` (the body's early return on a non-retryable error does
not skip the defer). -/
def workerExitTail (ctxCancelled : Bool) (result : Option Msg)
    (autoRestart : Bool) (now : Nat) (r : Runner) :
    Runner × RestartDecision :=
  let r1 :=
    if ctxCancelled then r
    else
      match result with
      | some e => recordProtocolFailure (some e) { r with lastError := some e }
      | none => recordProtocolSuccess r
  let r2 := { r1 with configFile := "", running := false }
  if ctxCancelled then
    (r2, RestartDecision.noRestart)
  else
    checkAutoRestart autoRestart now r2

/-- A log subscriber (`subscriberInfo`, logger.go): a bounded channel
modelled by its queued lines, plus the liveness metadata. -/
structure Subscriber where
  queue : List String
  lastActive : Nat
  remoteAddr : String

/-- `subscriberBufferSize` (logger.go): channel capacity 100. -/
def subscriberBufferSize : Nat := 100

/-- `LogBroadcaster` (logger.go).  The `container/ring` buffer is the list
of slot values starting at the current write position (so its head is the
oldest slot); `cleanupDoneClosed` is whether the `cleanupDone` channel has
been closed; `sweepStopped` is whether the cleanup goroutine has
returned. -/
structure LogBroadcaster where
  subscribers : List Subscriber
  buffer : List (Option String)
  bufferSize : Nat
  cleanupDoneClosed : Bool
  sweepStopped : Bool

/-- `NewLogBroadcaster` (logger.go): empty subscriber map, `ring.New n`
(all slots nil), cleanup goroutine started. -/
def NewLogBroadcaster (n : Nat) : LogBroadcaster :=
  { subscribers := [], buffer := List.replicate n none, bufferSize := n,
    cleanupDoneClosed := false, sweepStopped := false }

/-- `Close` (logger.go).  Go's `close` on an already-closed channel panics,
so a second `Close` faults at `close(b.cleanupDone)`; a first `Close`
stops the sweep, closes every subscriber channel and empties the map. -/
def LogBroadcaster.close (b : LogBroadcaster) : Except String LogBroadcaster :=
  if b.cleanupDoneClosed then
    Except.error "panic: close of closed channel"
  else
    Except.ok { b with cleanupDoneClosed := true, sweepStopped := true,
                       subscribers := [] }

/-- The non-blocking send of `Broadcast` (logger.go): append to the
channel if it has room and refresh `lastActive`; otherwise skip the
subscriber and leave `lastActive` alone. -/
def sendNonBlocking (now : Nat) (line : String) (s : Subscriber) : Subscriber :=
  if s.queue.length < subscriberBufferSize then
    { s with queue := s.queue ++ [line], lastActive := now }
  else
    s

/-- One `ring` write of `Broadcast` (logger.go): store the line at the
current position and advance, i.e. drop the head slot and append the line
at the back of the rotation. -/
def broadcastBuf (line : String) : List (Option String) → List (Option String)
  | [] => []
  | _ :: t => t ++ [some line]

/-- `Broadcast` (logger.go): store into the circular buffer, then attempt
a non-blocking send to every subscriber. -/
def LogBroadcaster.broadcast (now : Nat) (line : String) (b : LogBroadcaster) :
    LogBroadcaster :=
  { b with buffer := broadcastBuf line b.buffer,
           subscribers := b.subscribers.map (sendNonBlocking now line) }

/-- `GetRecentLogs` (logger.go): walk the ring from the current position
(`ring.Do`), keeping slots that hold a non-empty string. -/
def LogBroadcaster.getRecentLogs (b : LogBroadcaster) : List String :=
  b.buffer.filterMap fun v =>
    match v with
    | some line => if line = "" then none else some line
    | none => none

/-- A sequence of `Broadcast` calls, oldest first. -/
def broadcastAll (now : Nat) (lines : List String) (b : LogBroadcaster) :
    LogBroadcaster :=
  lines.foldl (fun acc line => acc.broadcast now line) b

/-! ## Claim theorems -/

/-- Claim C6: the retryability classifier is total and pure; a nil error is
never retryable, and a non-nil error whose lowercased message matches no
retryable pattern and no non-retryable pattern defaults to retryable. -/
theorem c6_unknown_defaults_retryable :
    isRetryableError none = false ∧
    ∀ msg : Msg,
      (∀ p ∈ retryablePatterns, containsSub p (lowerMsg msg) = false) →
      (∀ p ∈ nonRetryablePatterns, containsSub p (lowerMsg msg) = false) →
      isRetryableError (some msg) = true := by
  refine ⟨rfl, fun msg h1 h2 => ?_⟩
  have e1 : retryablePatterns.any (fun p => containsSub p (lowerMsg msg)) = false :=
    List.any_eq_false.mpr (fun p hp => by simp [h1 p hp])
  have e2 : nonRetryablePatterns.any (fun p => containsSub p (lowerMsg msg)) = false :=
    List.any_eq_false.mpr (fun p hp => by simp [h2 p hp])
  simp [isRetryableError, e1, e2]

/-- Witness for C6 at the concrete message "some unknown flaky failure",
which matches neither pattern list. -/
theorem c6_witness :
    isRetryableError (some ("some unknown flaky failure".data)) = true :=
  c6_unknown_defaults_retryable.2 _ (by decide) (by decide)

/-- Claim C10: the retryable list is scanned before the non-retryable
list, so a message containing patterns from both lists (such as
"unauthorized: i/o timeout") is classified retryable. -/
theorem c10_retryable_list_scanned_first :
    ∀ msg : Msg,
      (∃ p ∈ retryablePatterns, containsSub p (lowerMsg msg) = true) →
      (∃ q ∈ nonRetryablePatterns, containsSub q (lowerMsg msg) = true) →
      isRetryableError (some msg) = true := by
  intro msg h1 _
  have e1 : retryablePatterns.any (fun p => containsSub p (lowerMsg msg)) = true :=
    List.any_eq_true.mpr h1
  simp [isRetryableError, e1]

/-- Witness for C10 at "unauthorized: i/o timeout", which contains the
retryable pattern "i/o timeout" and the non-retryable pattern
"unauthorized". -/
theorem c10_witness :
    isRetryableError (some ("unauthorized: i/o timeout".data)) = true :=
  c10_retryable_list_scanned_first _ (by decide) (by decide)

/-- A supervisor state that is mid-run: worker active, a previous error
recorded, one cancellation context allocated. -/
def runningRunner : Runner :=
  { NewRunner with running := true, lastError := some ("boom".data),
                   restartCount := 2, ctxGen := 1 }

/-- Claim C8: Start on a running supervisor fails with AlreadyRunning,
spawns no worker goroutine, and returns the state unchanged (lastError
kept, no new cancellation context). -/
theorem c8_start_rejects_when_running (cfg : Config) (r : Runner)
    (h : r.running = true) :
    Start cfg r = (r, some StartError.alreadyRunning, false) := by
  simp [Start, h]

/-- Witness for C8 at a concrete mid-run state and configuration. -/
theorem c8_witness :
    Start { token := "tok", protocol := "auto", autoRestart := true }
        runningRunner =
      (runningRunner, some StartError.alreadyRunning, false) :=
  c8_start_rejects_when_running _ _ rfl

/-- `recordProtocolFailure` never touches the restart bookkeeping. -/
lemma recordProtocolFailure_restart (e : Option Msg) (r : Runner) :
    (recordProtocolFailure e r).restartCount = r.restartCount ∧
    (recordProtocolFailure e r).lastRestart = r.lastRestart := by
  unfold recordProtocolFailure
  by_cases h1 : r.currentProtocol = "" ∨ r.currentProtocol = "auto" <;>
    by_cases h2 : isProtocolRelatedError e = true <;>
      simp [h1, h2]

/-- `recordProtocolSuccess` never touches `lastRestart`. -/
lemma recordProtocolSuccess_lastRestart (r : Runner) :
    (recordProtocolSuccess r).lastRestart = r.lastRestart := by
  unfold recordProtocolSuccess
  split <;> rfl

/-- `checkAutoRestart` inside the five-minute window with a count below the
maximum: schedule after the backoff delay of the pre-increment count, then
increment. -/
lemma checkAutoRestart_recent (now : Nat) (r : Runner)
    (hrecent : ¬ now - r.lastRestart > 300) (hcount : r.restartCount < 10) :
    checkAutoRestart true now r =
      ({ r with restartCount := r.restartCount + 1, lastRestart := now },
       RestartDecision.restartAfter (backoffDelay r.restartCount)) := by
  unfold checkAutoRestart
  rw [if_neg (by simp), if_neg hrecent, if_neg (by omega)]

/-- `checkAutoRestart` when the last restart is stale (older than five
minutes): the count is reset to 0 before the delay is computed, so the
delay is `backoffDelay 0` and the stored count becomes 1. -/
lemma checkAutoRestart_stale (now : Nat) (r : Runner)
    (hstale : now - r.lastRestart > 300) :
    checkAutoRestart true now r =
      ({ r with restartCount := 1, lastRestart := now },
       RestartDecision.restartAfter (backoffDelay 0)) := by
  unfold checkAutoRestart
  rw [if_neg (by simp), if_pos hstale]
  rfl

/-- Claim C3: a retryable worker exit with auto-restart enabled and a
restart count below 10 (inside the five-minute window, so no stale reset
interferes) schedules a restart after exactly `min (5 * 2 ^ restartCount)
60` seconds, computed from the pre-increment count, which is incremented
afterwards; the delays observed from count 0 are 5, 10, 20, 40, 60, 60. -/
theorem c3_retryable_backoff_delay (r : Runner) (e : Msg) (now : Nat)
    (_hretry : isRetryableError (some e) = true)
    (hcount : r.restartCount < 10)
    (hrecent : now - r.lastRestart ≤ 300) :
    (workerExitTail false (some e) true now r).2 =
      RestartDecision.restartAfter (backoffDelay r.restartCount) ∧
    (workerExitTail false (some e) true now r).1.restartCount =
      r.restartCount + 1 ∧
    [0, 1, 2, 3, 4, 5].map backoffDelay = [5, 10, 20, 40, 60, 60] := by
  have hfr := recordProtocolFailure_restart (some e)
    { r with lastError := some e }
  unfold workerExitTail
  simp only [if_neg (Bool.false_ne_true)]
  rw [checkAutoRestart_recent now _ (by simp [hfr.2]; omega) (by simp [hfr.1]; omega)]
  refine ⟨by simp [hfr.1], by simp [hfr.1], by decide⟩

/-- A supervisor state two crashes into a chain, last restarted at 100s. -/
def crashingRunner : Runner :=
  { NewRunner with restartCount := 2, lastRestart := 100,
                   currentProtocol := "quic" }

/-- Witness for C3: at restart count 2, a retryable exit at time 200
schedules a restart after 20 seconds. -/
theorem c3_witness :
    (workerExitTail false (some ("connection reset".data)) true 200
        crashingRunner).2 = RestartDecision.restartAfter 20 := by
  have h := c3_retryable_backoff_delay crashingRunner ("connection reset".data)
    200 (by decide) (by decide) (by decide)
  exact h.1.trans (by decide)

/-- Claim C7: `restartCount` is reset to 0 in exactly two situations - by
the restart-decision procedure when the last restart is more than five
minutes old (before the delay is computed, so that decision uses
`backoffDelay 0`), and by recording a clean worker exit (which always runs
with a concrete current protocol); Start, Stop, selectProtocol and
recordProtocolFailure preserve the count, and an in-window
restart decision never zeroes a nonzero count. -/
theorem c7_restart_count_reset_situations :
    (∀ now r, now - r.lastRestart > 300 →
      checkAutoRestart true now r =
        ({ r with restartCount := 1, lastRestart := now },
         RestartDecision.restartAfter (backoffDelay 0))) ∧
    (∀ r, r.currentProtocol ≠ "" → r.currentProtocol ≠ "auto" →
      (recordProtocolSuccess r).restartCount = 0) ∧
    (∀ cfg r, (Start cfg r).1.restartCount = r.restartCount) ∧
    (∀ t r, (Stop t r).1.restartCount = r.restartCount) ∧
    (∀ cp now r, (selectProtocol cp now r).1.restartCount = r.restartCount) ∧
    (∀ e r, (recordProtocolFailure e r).restartCount = r.restartCount) ∧
    (∀ now r, now - r.lastRestart ≤ 300 → r.restartCount ≠ 0 →
      ∀ ar, (checkAutoRestart ar now r).1.restartCount ≠ 0) := by
  refine ⟨fun now r h => checkAutoRestart_stale now r h,
          fun r h1 h2 => ?_, fun cfg r => ?_, fun t r => ?_,
          fun cp now r => ?_, fun e r => (recordProtocolFailure_restart e r).1,
          fun now r h1 h2 ar => ?_⟩
  · simp [recordProtocolSuccess, h1, h2]
  · unfold Start
    split
    · rfl
    · split <;> rfl
  · unfold Stop
    split
    · rfl
    · split <;> rfl
  · unfold selectProtocol
    split
    · rfl
    · split <;> rfl
  · unfold checkAutoRestart
    cases ar with
    | false => simpa using h2
    | true =>
      have h1' : ¬ now - r.lastRestart > 300 := by omega
      rw [if_neg (by simp), if_neg h1']
      dsimp only
      split
      · exact h2
      · simp

/-- A supervisor state used to exercise both reset situations. -/
def chainedRunner : Runner :=
  { NewRunner with restartCount := 4, lastRestart := 50,
                   currentProtocol := "quic" }

/-- Witness for C7: the stale-window reset at time 400, the clean-exit
reset, and the in-window non-reset at time 100, all on a concrete state
with restart count 4 last restarted at 50s. -/
theorem c7_witness :
    checkAutoRestart true 400 chainedRunner =
      ({ chainedRunner with restartCount := 1, lastRestart := 400 },
       RestartDecision.restartAfter (backoffDelay 0)) ∧
    (recordProtocolSuccess chainedRunner).restartCount = 0 ∧
    (checkAutoRestart true 100 chainedRunner).1.restartCount ≠ 0 :=
  ⟨c7_restart_count_reset_situations.1 400 chainedRunner (by decide),
   c7_restart_count_reset_situations.2.1 chainedRunner (by decide) (by decide),
   c7_restart_count_reset_situations.2.2.2.2.2.2 100 chainedRunner (by decide)
     (by decide) true⟩

/-- Whatever the configuration and prior state, `selectProtocol` leaves
`currentProtocol` set to a concrete protocol (never empty, never auto), so
every run executes with a concrete current protocol. -/
lemma selectProtocol_concrete (cp : String) (now : Nat) (r : Runner) :
    (selectProtocol cp now r).1.currentProtocol ≠ "" ∧
    (selectProtocol cp now r).1.currentProtocol ≠ "auto" := by
  unfold selectProtocol
  split
  · rename_i h
    exact ⟨h.1, h.2⟩
  · split
    · dsimp only
      split <;> exact ⟨by decide, by decide⟩
    · dsimp only
      split
      · exact ⟨by decide, by decide⟩
      · rename_i h'
        rw [not_or] at h'
        exact h'

/-- Claim C4: in automatic mode, once the active protocol (quic or http2)
has 3 or more consecutive failures, the next selection returns the other
protocol of the two-way cycle and zeroes the abandoned protocol's failure
counter; and a run failure changes the failure map only when the error is
protocol-related, in which case exactly the active protocol's counter is
incremented. -/
theorem c4_auto_mode_fallback (cp : String) (now : Nat) (r : Runner)
    (hauto : cp = "" ∨ cp = "auto")
    (hcur : r.currentProtocol = "quic" ∨ r.currentProtocol = "http2") :
    (r.protocolFailures r.currentProtocol ≥ 3 →
      (selectProtocol cp now r).2 =
        (if r.currentProtocol = "quic" then "http2" else "quic") ∧
      (selectProtocol cp now r).1.currentProtocol =
        (if r.currentProtocol = "quic" then "http2" else "quic") ∧
      (selectProtocol cp now r).1.protocolFailures r.currentProtocol = 0) ∧
    (∀ e : Option Msg, isProtocolRelatedError e = false →
      (recordProtocolFailure e r).protocolFailures = r.protocolFailures) ∧
    (∀ e : Option Msg, isProtocolRelatedError e = true →
      (recordProtocolFailure e r).protocolFailures r.currentProtocol =
        r.protocolFailures r.currentProtocol + 1 ∧
      ∀ p, p ≠ r.currentProtocol →
        (recordProtocolFailure e r).protocolFailures p =
          r.protocolFailures p) := by
  have hne : r.currentProtocol ≠ "" ∧ r.currentProtocol ≠ "auto" := by
    rcases hcur with h | h <;> simp [h]
  have hc1 : ¬(cp ≠ "" ∧ cp ≠ "auto") := by
    rcases hauto with h | h <;> simp [h]
  have hnor : ¬(r.currentProtocol = "" ∨ r.currentProtocol = "auto") :=
    not_or.mpr ⟨hne.1, hne.2⟩
  refine ⟨fun hfail => ?_, fun e he => ?_, fun e he => ?_⟩
  · unfold selectProtocol
    rw [if_neg hc1, if_pos hfail]
    dsimp only
    rcases hcur with h | h <;> simp [h, Function.update_same]
  · unfold recordProtocolFailure
    rw [if_neg hnor]
    simp [he]
  · unfold recordProtocolFailure
    rw [if_neg hnor]
    simp only [he, if_true]
    exact ⟨Function.update_same _ _ _,
           fun p hp => Function.update_noteq hp _ _⟩

/-- An auto-mode supervisor whose active protocol quic has failed three
consecutive times. -/
def quicFailingRunner : Runner :=
  { NewRunner with currentProtocol := "quic",
                   protocolFailures := fun p => if p = "quic" then 3 else 0 }

/-- Witness for C4: with quic at 3 failures, auto mode switches to http2
and zeroes quic's counter; an authentication error leaves the counters
alone while a connection-refused error bumps quic from 3 to 4. -/
theorem c4_witness :
    (selectProtocol "auto" 7 quicFailingRunner).2 = "http2" ∧
    (selectProtocol "auto" 7 quicFailingRunner).1.protocolFailures "quic" = 0 ∧
    (recordProtocolFailure (some ("invalid token".data))
        quicFailingRunner).protocolFailures "quic" = 3 ∧
    (recordProtocolFailure (some ("connection refused".data))
        quicFailingRunner).protocolFailures "quic" = 4 := by
  have h := c4_auto_mode_fallback "auto" 7 quicFailingRunner
    (Or.inr rfl) (Or.inl rfl)
  have h1 := h.1 (by decide)
  have h2 := h.2.1 (some ("invalid token".data)) (by decide)
  have h3 := (h.2.2 (some ("connection refused".data)) (by decide)).1
  refine ⟨h1.1.trans (by decide), h1.2.2, ?_, h3.trans (by decide)⟩
  rw [h2]
  decide

/-- An auto-mode supervisor (currentProtocol still "auto") with a nonzero
restart count and a recorded quic failure. -/
def autoStuckRunner : Runner :=
  { NewRunner with restartCount := 3,
                   protocolFailures := fun p => if p = "quic" then 2 else 0 }

/-- Counterexample for C5: when `currentProtocol` is still "auto",
`recordProtocolSuccess` is a no-op, so neither the failure counters nor
`restartCount` are reset. -/
theorem c5_counterexample :
    ¬ ((recordProtocolSuccess autoStuckRunner).restartCount = 0 ∧
       ∀ p, (recordProtocolSuccess autoStuckRunner).protocolFailures p = 0) := by
  intro h
  exact absurd h.1 (by decide)

/-- Claim C5 (amended): when the current protocol is concrete (neither
empty nor "auto") - which `selectProtocol` guarantees for every run -
recording a success resets every protocol's failure counter and the
restart count to 0. -/
theorem c5_success_resets_everything (r : Runner)
    (h1 : r.currentProtocol ≠ "") (h2 : r.currentProtocol ≠ "auto") :
    (recordProtocolSuccess r).restartCount = 0 ∧
    (∀ p, (recordProtocolSuccess r).protocolFailures p = 0) ∧
    ∀ cp now r0, (selectProtocol cp now r0).1.currentProtocol ≠ "" ∧
      (selectProtocol cp now r0).1.currentProtocol ≠ "auto" := by
  refine ⟨?_, fun p => ?_, fun cp now r0 => selectProtocol_concrete cp now r0⟩
  · simp [recordProtocolSuccess, h1, h2]
  · simp [recordProtocolSuccess, h1, h2]

/-- A supervisor running http2 with stale failure counts and a long crash
chain. -/
def http2Runner : Runner :=
  { NewRunner with currentProtocol := "http2", restartCount := 7,
                   protocolFailures := fun p => if p = "quic" then 5 else 1 }

/-- Witness for C5 (amended) at a concrete http2 state. -/
theorem c5_witness :
    (recordProtocolSuccess http2Runner).restartCount = 0 ∧
    (recordProtocolSuccess http2Runner).protocolFailures "quic" = 0 := by
  have h := c5_success_resets_everything http2Runner (by decide) (by decide)
  exact ⟨h.1, h.2.1 "quic"⟩

/-- The state of a fresh run started after a Stop timeout superseded the
previous run: the new worker is active and owns a new temporary config
file; one restart is on record. -/
def newRunState : Runner :=
  { NewRunner with running := true, configFile := "/tmp/cloudflared-new.yaml",
                   currentProtocol := "quic", restartCount := 1,
                   lastRestart := 100, ctxGen := 2 }

/-- Claim C1 evaluated at the failing input (code bug): when the orphaned
worker of the superseded run finally exits (its own context is cancelled,
so `ctxCancelled = true`), its deferred cleanup triggers no restart and
leaves the restart bookkeeping alone, but it unconditionally clears the
shared `running` flag and empties (and deletes) the shared temporary
config path - both now owned by the new run - instead of being a no-op. -/
theorem c1_late_exit_corrupts_new_run :
    (workerExitTail true none true 200 newRunState).1.running = false ∧
    (workerExitTail true none true 200 newRunState).1.configFile = "" ∧
    newRunState.running = true ∧
    newRunState.configFile = "/tmp/cloudflared-new.yaml" ∧
    (workerExitTail true none true 200 newRunState).2 =
      RestartDecision.noRestart ∧
    (workerExitTail true none true 200 newRunState).1.restartCount =
      newRunState.restartCount :=
  ⟨rfl, rfl, rfl, rfl, rfl, rfl⟩

/-- Counterexample for C2: on a fresh broadcaster the first Close
succeeds, but a second Close immediately after it faults - Go panics on
`close(b.cleanupDone)` because the channel is already closed - rather
than succeeding as an idempotent shutdown would. -/
theorem c2_counterexample :
    Except.bind (NewLogBroadcaster 500).close LogBroadcaster.close =
      Except.error "panic: close of closed channel" := rfl

/-- Claim C2 (amended): Close is a strictly one-time shutdown: a first
Close (done channel not yet closed) stops the sweep and closes and drops
every subscriber channel, but Close is not idempotent - on any state whose
done channel is already closed it panics closing it again. -/
theorem c2_close_is_one_time (b : LogBroadcaster)
    (h : b.cleanupDoneClosed = false) :
    b.close = Except.ok { b with cleanupDoneClosed := true,
                                 sweepStopped := true, subscribers := [] } ∧
    ∀ b' : LogBroadcaster, b'.cleanupDoneClosed = true →
      b'.close = Except.error "panic: close of closed channel" := by
  constructor
  · unfold LogBroadcaster.close
    rw [if_neg (by simp [h])]
  · intro b' h'
    unfold LogBroadcaster.close
    rw [if_pos h']

/-- The state a first Close leaves the fresh 500-line broadcaster in. -/
def closedBroadcaster : LogBroadcaster :=
  { NewLogBroadcaster 500 with cleanupDoneClosed := true,
                               sweepStopped := true, subscribers := [] }

/-- Witness for C2 (amended): the fresh 500-line broadcaster closes once,
and the closed state it produces faults on a second Close. -/
theorem c2_witness :
    (NewLogBroadcaster 500).close = Except.ok closedBroadcaster ∧
    closedBroadcaster.close =
      Except.error "panic: close of closed channel" := by
  have h := c2_close_is_one_time (NewLogBroadcaster 500) rfl
  exact ⟨h.1, h.2 _ rfl⟩

/-- Broadcasting touches the history buffer independently of the
subscriber map. -/
lemma broadcastAll_buffer (now : Nat) (ls : List String) (b : LogBroadcaster) :
    (broadcastAll now ls b).buffer =
      ls.foldl (fun buf l => broadcastBuf l buf) b.buffer := by
  induction ls generalizing b with
  | nil => rfl
  | cons l t ih =>
    show (broadcastAll now t (b.broadcast now l)).buffer = _
    rw [ih, List.foldl_cons]
    rfl

/-- Folding ring writes over a nonempty buffer: the final ring, read from
the write position, is the original slots followed by the broadcast lines,
shifted by one drop per write. -/
lemma foldl_broadcastBuf (ls : List String) (b0 : List (Option String))
    (h : b0 ≠ []) :
    ls.foldl (fun buf l => broadcastBuf l buf) b0 =
      (b0 ++ ls.map some).drop ls.length := by
  induction ls generalizing b0 with
  | nil => simp
  | cons l t ih =>
    match b0, h with
    | x :: rest, _ =>
      rw [List.foldl_cons]
      show t.foldl (fun buf l => broadcastBuf l buf) (rest ++ [some l]) = _
      rw [ih (rest ++ [some l]) (by simp)]
      rw [List.cons_append, List.length_cons, List.map_cons,
          List.drop_succ_cons, List.append_assoc, List.singleton_append]

/-- The slot filter of `GetRecentLogs`. -/
def recentSlot (v : Option String) : Option String :=
  match v with
  | some line => if line = "" then none else some line
  | none => none

/-- `getRecentLogs` is the slot filter applied to the ring. -/
lemma getRecentLogs_eq (b : LogBroadcaster) :
    b.getRecentLogs = b.buffer.filterMap recentSlot := by
  unfold LogBroadcaster.getRecentLogs recentSlot
  rfl

/-- Empty (never written) slots contribute nothing to the recent logs. -/
lemma filterMap_recentSlot_replicate_none (m : Nat) :
    (List.replicate m (none : Option String)).filterMap recentSlot = [] := by
  induction m with
  | zero => rfl
  | succ k ih => simp [List.replicate_succ, List.filterMap_cons, recentSlot, ih]

/-- Written slots holding non-empty lines all survive the recent-log
filter. -/
lemma filterMap_recentSlot_some (ys : List String) (h : ∀ y ∈ ys, y ≠ "") :
    (ys.map some).filterMap recentSlot = ys := by
  induction ys with
  | nil => rfl
  | cons y t ih =>
    have hy : y ≠ "" := h y (by simp)
    simp only [List.map_cons, List.filterMap_cons, recentSlot, if_neg hy]
    rw [ih (fun z hz => h z (by simp [hz]))]

/-- Counterexample for C9: three broadcasts `["a", "b", ""]` into a
capacity-2 history do not yield the last two lines `["b", ""]` - the
recent-log filter silently drops the broadcast empty line. -/
theorem c9_counterexample :
    ¬ (broadcastAll 0 ["a", "b", ""] (NewLogBroadcaster 2)).getRecentLogs =
        ["b", ""] := by
  decide

/-- Claim C9 (amended): on a fresh broadcaster one broadcast of a
non-empty line is exactly what GetRecentLogs returns; and for any sequence
of more than N non-empty lines broadcast into a capacity-N history,
GetRecentLogs returns exactly the last N lines in chronological order
(oldest evicted first).  Broadcast empty lines are excluded from the
returned history. -/
theorem c9_history_fifo (now : Nat) :
    (∀ (n : Nat) (l : String), 0 < n → l ≠ "" →
      ((NewLogBroadcaster n).broadcast now l).getRecentLogs = [l]) ∧
    (∀ (n : Nat) (ls : List String), 0 < n → ls.length > n →
      (∀ l ∈ ls, l ≠ "") →
      (broadcastAll now ls (NewLogBroadcaster n)).getRecentLogs =
        ls.drop (ls.length - n)) := by
  constructor
  · intro n l hn hl
    match n, hn with
    | m + 1, _ =>
      rw [getRecentLogs_eq]
      have hb : ((NewLogBroadcaster (m + 1)).broadcast now l).buffer =
          List.replicate m none ++ [some l] := by
        show broadcastBuf l (List.replicate (m + 1) none) = _
        rw [List.replicate_succ]
        rfl
      rw [hb, List.filterMap_append, filterMap_recentSlot_replicate_none]
      simp [recentSlot, hl]
  · intro n ls hn hlen hne
    rw [getRecentLogs_eq, broadcastAll_buffer]
    have hb : (NewLogBroadcaster n).buffer = List.replicate n none := rfl
    rw [hb, foldl_broadcastBuf ls _
      (List.length_pos.mp (by simpa using hn))]
    obtain ⟨k, hk⟩ : ∃ k, ls.length = n + k := ⟨ls.length - n, by omega⟩
    have h2 : (List.replicate n (none : Option String) ++ ls.map some).drop
        (n + k) = (ls.map some).drop k := by
      have h3 := @List.drop_append (Option String)
        (List.replicate n none) (ls.map some) k
      simpa using h3
    rw [hk, h2, ← List.map_drop,
        filterMap_recentSlot_some _
          (fun y hy => hne y (List.mem_of_mem_drop hy))]
    congr 1
    omega

/-- Witness for C9 (amended): one broadcast of "X" into the fresh 500-line
broadcaster yields exactly ["X"], and three non-empty broadcasts into a
capacity-2 history keep the last two in order. -/
theorem c9_witness :
    ((NewLogBroadcaster 500).broadcast 0 "X").getRecentLogs = ["X"] ∧
    (broadcastAll 0 ["a", "b", "c"] (NewLogBroadcaster 2)).getRecentLogs =
      ["b", "c"] := by
  have h := c9_history_fifo 0
  refine ⟨h.1 500 "X" (by decide) (by decide), ?_⟩
  have h2 := h.2 2 ["a", "b", "c"] (by decide) (by decide) (by decide)
  exact h2.trans (by decide)

end CfUI
